import Mathlib

/-!
# Shopmate microservices: shallow embedding and verification

This file embeds the request handlers of the four Shopmate services
(product service, cart service, order service, frontend service) as pure
Lean functions over an explicit system state, and proves the testable
properties of the specification against them.

Modelling conventions:
* Each DynamoDB table is an association list keyed by the record's key
  attribute; `PutCommand` overwrites the record with the same key in place
  (or appends when absent), `GetCommand` is `find?` on the key.
* JS numbers used as identifiers, quantities and stock are modelled by
  `Int` (quantities come from `parseInt` and may be negative or zero);
  prices and money amounts by `Rat` (exact arithmetic; the claims under
  verification are structural, not about float rounding).
* A JSON field that may be `null` or absent is an `Option`; the JS idiom
  `x || []` becomes `Option.getD x []`.
* `new Date().toISOString()` timestamps are an explicit `now : Nat`
  parameter threaded into each handler that stores one.
* An `axios` call to a sibling service is a direct call to that service's
  embedded handler on the same state; an axios GET that would receive a
  404 (absent record) throws in JS and lands in the handler's `catch`
  block, which we model by a `failed` result with the state unchanged.
-/

namespace Shopmate

/-- A catalog product record, as stored in the products table
(product-service `sampleProducts` shape). -/
structure Product where
  id : Int
  name : String
  price : Rat
  description : String
  image : String
  stock : Int
  deriving Repr, DecidableEq

/-- A cart line `{ productId, quantity }` (cart-service). -/
structure CartItem where
  productId : Int
  quantity : Int
  deriving Repr, DecidableEq

/-- A stored cart record `{ userId, items, updatedAt }` (cart-service
`PutCommand` item). `items` is an `Option` because a JSON attribute can in
principle be `null` or absent; the verified invariant is that the service
only ever stores an actual list. -/
structure CartRecord where
  userId : String
  items : Option (List CartItem)
  updatedAt : Nat
  deriving Repr, DecidableEq

/-- Checkout customer details `{name, email, address}`. -/
structure Customer where
  name : String
  email : String
  address : String
  deriving Repr, DecidableEq

/-- The denormalized product snapshot embedded in an order item. -/
structure OrderItemProduct where
  id : Int
  name : String
  price : Rat
  deriving Repr, DecidableEq

/-- An order line `{ product, quantity, itemTotal }` (order-service). -/
structure OrderItem where
  product : OrderItemProduct
  quantity : Int
  itemTotal : Rat
  deriving Repr, DecidableEq

/-- A stored order record (order-service `PutCommand` item). -/
structure Order where
  id : String
  userId : String
  date : Nat
  customer : Customer
  items : List OrderItem
  total : Rat
  status : String
  deriving Repr, DecidableEq

/-- The combined state of the three DynamoDB tables. -/
structure SysState where
  products : List Product
  carts : List CartRecord
  orders : List Order
  deriving Repr, DecidableEq

/-! ## Table primitives -/

/-- `GetCommand` on the products table: find the record with the given id. -/
def getItem (table : List Product) (id : Int) : Option Product :=
  table.find? (fun p => p.id == id)

/-- `PutCommand` on the products table: overwrite the record with the same
id, or append when absent. -/
def putProduct : List Product → Product → List Product
  | [], p => [p]
  | q :: rest, p => if q.id == p.id then p :: rest else q :: putProduct rest p

/-- `GetCommand` on the carts table, keyed by `userId`. -/
def lookupCart (table : List CartRecord) (userId : String) : Option CartRecord :=
  table.find? (fun r => r.userId == userId)

/-- `PutCommand` on the carts table: overwrite the record with the same
`userId`, or append when absent. -/
def putCart : List CartRecord → CartRecord → List CartRecord
  | [], r => [r]
  | q :: rest, r => if q.userId == r.userId then r :: rest else q :: putCart rest r

/-- `GetCommand` on the orders table, keyed by order id. -/
def lookupOrder (table : List Order) (id : String) : Option Order :=
  table.find? (fun o => o.id == id)

/-- `PutCommand` on the orders table. -/
def putOrder : List Order → Order → List Order
  | [], o => [o]
  | q :: rest, o => if q.id == o.id then o :: rest else q :: putOrder rest o

/-! ## Product service handlers -/

/-- `GET /api/products/:id`: `none` models the 404 response. -/
def getProduct (s : SysState) (id : Int) : Option Product :=
  getItem s.products id

/-- `PUT /api/products/:id/stock`: read the full record; 404 (`false`,
state unchanged) when absent; otherwise overwrite the entire product
object with only the stock field replaced (`{ ...result.Item, stock }`). -/
def setStock (s : SysState) (id : Int) (stock : Int) : SysState × Bool :=
  match getItem s.products id with
  | none => (s, false)
  | some p => ({ s with products := putProduct s.products { p with stock := stock } }, true)

/-! ## Cart service handlers -/

/-- `GET /api/cart/:userId`: `result.Item ? result.Item.items || [] : []`. -/
def getCart (s : SysState) (userId : String) : List CartItem :=
  match lookupCart s.carts userId with
  | none => []
  | some r => r.items.getD []

/-- The JSON body the `GET /api/cart/:userId` handler passes to
`res.json`: status code paired with the value (a `none` value would be a
JSON `null`; the handler always produces a list). -/
def getCartHandler (s : SysState) (userId : String) : Nat × Option (List CartItem) :=
  match lookupCart s.carts userId with
  | none => (200, some [])
  | some r => (200, some (r.items.getD []))

/-- The cart-update step of `POST /api/cart/:userId/add`: `findIndex` the
first line with this productId and increment its quantity in place, else
`push` a new line at the end. -/
def bumpFirst : List CartItem → Int → Int → List CartItem
  | [], productId, quantity => [⟨productId, quantity⟩]
  | it :: rest, productId, quantity =>
    if it.productId == productId then
      { it with quantity := it.quantity + quantity } :: rest
    else
      it :: bumpFirst rest productId quantity

/-- Outcome of `POST /api/cart/:userId/add`. -/
inductive AddItemResult
  | ok (cart : List CartItem)
  | insufficientStock
  | failed
  deriving Repr, DecidableEq

/-- HTTP status code of each `AddItemResult`. -/
def AddItemResult.status : AddItemResult → Nat
  | .ok _ => 200
  | .insufficientStock => 400
  | .failed => 500

/-- `POST /api/cart/:userId/add`: fetch the product from the product
service (an absent product makes axios throw, caught as a 500 `failed`);
400 when `product.stock < quantity`; otherwise merge the line into the
cart, persist the cart, then decrement the product's stock via the
product service's `setStock`. -/
def addItem (s : SysState) (userId : String) (productId quantity : Int) (now : Nat) :
    SysState × AddItemResult :=
  match getProduct s productId with
  | none => (s, .failed)
  | some product =>
    if product.stock < quantity then
      (s, .insufficientStock)
    else
      let cartItems :=
        match lookupCart s.carts userId with
        | none => []
        | some r => r.items.getD []
      let newItems := bumpFirst cartItems productId quantity
      let s1 : SysState :=
        { s with carts := putCart s.carts ⟨userId, some newItems, now⟩ }
      let s2 := (setStock s1 productId (product.stock - quantity)).1
      (s2, .ok newItems)

/-- `PUT /api/cart/:userId`: unconditionally store `items || []`. -/
def replaceCart (s : SysState) (userId : String) (items : Option (List CartItem))
    (now : Nat) : SysState :=
  { s with carts := putCart s.carts ⟨userId, some (items.getD []), now⟩ }

/-- `DELETE /api/cart/:userId`: store an empty items list. -/
def clearCart (s : SysState) (userId : String) (now : Nat) : SysState :=
  { s with carts := putCart s.carts ⟨userId, some [], now⟩ }

/-! ## Order service handlers -/

/-- Outcome of `POST /api/orders`. -/
inductive CreateOrderResult
  | ok (o : Order)
  | emptyCart
  | failed
  deriving Repr, DecidableEq

/-- HTTP status code of each `CreateOrderResult`. -/
def CreateOrderResult.status : CreateOrderResult → Nat
  | .ok _ => 200
  | .emptyCart => 400
  | .failed => 500

/-- The pricing loop of `POST /api/orders`: for each cart line fetch the
product's current record and push
`{ product: {id,name,price}, quantity, itemTotal: price * quantity }`,
accumulating the total. `none` models the axios throw on a line whose
product is absent (no state was written yet at that point). -/
def buildOrderItems (products : List Product) :
    List CartItem → Option (List OrderItem × Rat)
  | [] => some ([], 0)
  | it :: rest =>
    match getItem products it.productId with
    | none => none
    | some p =>
      match buildOrderItems products rest with
      | none => none
      | some (items, total) =>
        let itemTotal : Rat := p.price * (it.quantity : Rat)
        some (⟨⟨p.id, p.name, p.price⟩, it.quantity, itemTotal⟩ :: items,
          itemTotal + total)

/-- `POST /api/orders`: fetch the cart from the cart service; 400 when it
has zero items; price every line at the product's current catalog price;
persist the order with status `Confirmed`; clear the cart via the cart
service. -/
def createOrder (s : SysState) (userId : String) (customer : Customer)
    (orderId : String) (now : Nat) : SysState × CreateOrderResult :=
  let cartItems := getCart s userId
  if cartItems.length == 0 then
    (s, .emptyCart)
  else
    match buildOrderItems s.products cartItems with
    | none => (s, .failed)
    | some (orderItems, total) =>
      let order : Order :=
        ⟨orderId, userId, now, customer, orderItems, total, "Confirmed"⟩
      let s1 : SysState := { s with orders := putOrder s.orders order }
      let s2 := clearCart s1 userId now
      (s2, .ok order)

/-! ## Frontend service: cart quantity update -/

/-- `POST /cart/update/:id` on the frontend service: read the cart; when
the productId is not in it, do nothing; otherwise either remove the line
and restore its full stock (`newQuantity <= 0`) or rewrite the quantity
and adjust stock by the difference. Both code paths (and the catch block)
redirect to `/cart`, returned as the second component. -/
def frontendCartUpdate (s : SysState) (userId : String)
    (productId newQuantity : Int) (now : Nat) : SysState × String :=
  let cartItems := getCart s userId
  match cartItems.find? (fun it => it.productId == productId) with
  | none => (s, "/cart")
  | some currentItem =>
    let quantityDiff := currentItem.quantity - newQuantity
    if newQuantity ≤ 0 then
      match getProduct s productId with
      | none => (s, "/cart")
      | some product =>
        let s1 := (setStock s productId (product.stock + currentItem.quantity)).1
        let updatedItems := cartItems.filter (fun it => !(it.productId == productId))
        (replaceCart s1 userId (some updatedItems) now, "/cart")
    else
      match getProduct s productId with
      | none => (s, "/cart")
      | some product =>
        let s1 := (setStock s productId (product.stock + quantityDiff)).1
        let updatedItems := cartItems.map (fun it =>
          if it.productId == productId then { it with quantity := newQuantity } else it)
        (replaceCart s1 userId (some updatedItems) now, "/cart")

/-! ## Spec-side observables -/

/-- Total quantity of a given productId across all matching cart lines
(the merged view of a cart). -/
def qtyOf : List CartItem → Int → Int
  | [], _ => 0
  | it :: rest, pid =>
    (if it.productId == pid then it.quantity else 0) + qtyOf rest pid

/-- Spec-side order total: sum over cart lines of the product's current
catalog price times the line quantity (lines whose product is absent
contribute nothing; the order service never reaches them). -/
def cartTotal (products : List Product) : List CartItem → Rat
  | [] => 0
  | it :: rest =>
    (match getItem products it.productId with
     | some p => p.price * (it.quantity : Rat)
     | none => 0) + cartTotal products rest

/-! ## Table lemmas -/

theorem getItem_cons (q : Product) (rest : List Product) (j : Int) :
    getItem (q :: rest) j = if q.id = j then some q else getItem rest j := by
  by_cases h : q.id = j
  · rw [if_pos h]
    exact List.find?_cons_of_pos _ (by simp [h])
  · rw [if_neg h]
    exact List.find?_cons_of_neg _ (by simp [h])

theorem lookupCart_cons (q : CartRecord) (rest : List CartRecord) (u : String) :
    lookupCart (q :: rest) u = if q.userId = u then some q else lookupCart rest u := by
  by_cases h : q.userId = u
  · rw [if_pos h]
    exact List.find?_cons_of_pos _ (by simp [h])
  · rw [if_neg h]
    exact List.find?_cons_of_neg _ (by simp [h])

theorem getItem_some_id {t : List Product} {id : Int} {p : Product}
    (h : getItem t id = some p) : p.id = id := by
  have := List.find?_some h
  simpa using this

theorem getItem_putProduct_self (t : List Product) (p : Product) :
    getItem (putProduct t p) p.id = some p := by
  induction t with
  | nil => simp [putProduct, getItem]
  | cons q rest ih =>
    by_cases h : q.id = p.id
    · simp [putProduct, getItem, h]
    · simpa [putProduct, getItem, h] using ih

theorem getItem_putProduct_ne (t : List Product) (p : Product) (j : Int)
    (h : j ≠ p.id) : getItem (putProduct t p) j = getItem t j := by
  induction t with
  | nil => simp [putProduct, getItem, Ne.symm h]
  | cons q rest ih =>
    by_cases hq : q.id = p.id
    · simp [putProduct, hq, getItem_cons, Ne.symm h]
    · simp [putProduct, hq, getItem_cons, ih]

theorem lookupCart_putCart_self (t : List CartRecord) (r : CartRecord) :
    lookupCart (putCart t r) r.userId = some r := by
  induction t with
  | nil => simp [putCart, lookupCart]
  | cons q rest ih =>
    by_cases h : q.userId = r.userId
    · simp [putCart, lookupCart, h]
    · simpa [putCart, lookupCart, h] using ih

theorem lookupCart_putCart_ne (t : List CartRecord) (r : CartRecord) (u : String)
    (h : u ≠ r.userId) : lookupCart (putCart t r) u = lookupCart t u := by
  induction t with
  | nil => simp [putCart, lookupCart, Ne.symm h]
  | cons q rest ih =>
    by_cases hq : q.userId = r.userId
    · simp [putCart, hq, lookupCart_cons, Ne.symm h]
    · simp [putCart, hq, lookupCart_cons, ih]

theorem putCart_putCart_same_key (t : List CartRecord) (r r' : CartRecord)
    (h : r.userId = r'.userId) : putCart (putCart t r) r' = putCart t r' := by
  induction t with
  | nil => simp [putCart, h]
  | cons q rest ih =>
    by_cases hq : q.userId = r.userId
    · simp [putCart, hq, h, hq.trans h]
    · have hq' : ¬ q.userId = r'.userId := fun hc => hq (hc.trans h.symm)
      simp [putCart, hq, hq', ih]

/-! ## State projections across operations -/

theorem setStock_carts (s : SysState) (id st : Int) :
    (setStock s id st).1.carts = s.carts := by
  unfold setStock
  cases getItem s.products id <;> rfl

theorem setStock_orders (s : SysState) (id st : Int) :
    (setStock s id st).1.orders = s.orders := by
  unfold setStock
  cases getItem s.products id <;> rfl

theorem getCart_eq_lookup (s : SysState) (u : String) :
    getCart s u = (lookupCart s.carts u).elim [] (fun r => r.items.getD []) := by
  unfold getCart
  cases lookupCart s.carts u <;> rfl

/-! ## bumpFirst lemmas -/

theorem qtyOf_bumpFirst (l : List CartItem) (pid q : Int) :
    qtyOf (bumpFirst l pid q) pid = qtyOf l pid + q := by
  induction l with
  | nil => simp [bumpFirst, qtyOf]
  | cons it rest ih =>
    by_cases h : it.productId = pid
    · simp [bumpFirst, qtyOf, h]
      try ring
    · simp [bumpFirst, qtyOf, h, ih]
      try ring

theorem bumpFirst_of_not_mem (l : List CartItem) (pid q : Int)
    (h : ∀ it ∈ l, it.productId ≠ pid) :
    bumpFirst l pid q = l ++ [⟨pid, q⟩] := by
  induction l with
  | nil => simp [bumpFirst]
  | cons it rest ih =>
    have h1 : it.productId ≠ pid := h it (by simp)
    have h2 : ∀ x ∈ rest, x.productId ≠ pid := fun x hx => h x (by simp [hx])
    simp [bumpFirst, h1, ih h2]

theorem length_bumpFirst_of_mem (l : List CartItem) (pid q : Int)
    (h : ∃ it ∈ l, it.productId = pid) :
    (bumpFirst l pid q).length = l.length := by
  induction l with
  | nil => simp at h
  | cons it rest ih =>
    by_cases h1 : it.productId = pid
    · simp [bumpFirst, h1]
    · have h2 : ∃ x ∈ rest, x.productId = pid := by
        rcases h with ⟨x, hx, hpx⟩
        rcases List.mem_cons.mp hx with h | h
        · exact absurd (h ▸ hpx) h1
        · exact ⟨x, h, hpx⟩
      simp [bumpFirst, h1, ih h2]

/-! ## addItem characterization -/

theorem addItem_ok_eq (s : SysState) (u : String) (pid q : Int) (t : Nat)
    (p : Product) (hp : getItem s.products pid = some p) (hq : q ≤ p.stock) :
    addItem s u pid q t =
      (⟨putProduct s.products { p with stock := p.stock - q },
        putCart s.carts ⟨u, some (bumpFirst (getCart s u) pid q), t⟩,
        s.orders⟩,
       AddItemResult.ok (bumpFirst (getCart s u) pid q)) := by
  have hlt : ¬ p.stock < q := not_lt.mpr hq
  simp only [addItem, getProduct, setStock, getCart, hp, if_neg hlt]

theorem lookupCart_putCart_mk (t : List CartRecord) (u : String)
    (items : Option (List CartItem)) (ts : Nat) :
    lookupCart (putCart t ⟨u, items, ts⟩) u = some ⟨u, items, ts⟩ :=
  lookupCart_putCart_self t ⟨u, items, ts⟩

theorem getCart_addItem_ok (s : SysState) (u : String) (pid q : Int) (t : Nat)
    (p : Product) (hp : getItem s.products pid = some p) (hq : q ≤ p.stock) :
    getCart (addItem s u pid q t).1 u = bumpFirst (getCart s u) pid q := by
  rw [addItem_ok_eq s u pid q t p hp hq]
  simp [getCart_eq_lookup, lookupCart_putCart_mk]

theorem getItem_addItem_ok (s : SysState) (u : String) (pid q : Int) (t : Nat)
    (p : Product) (hp : getItem s.products pid = some p) (hq : q ≤ p.stock) :
    getItem (addItem s u pid q t).1.products pid = some { p with stock := p.stock - q } := by
  rw [addItem_ok_eq s u pid q t p hp hq]
  have h5 := getItem_putProduct_self s.products { p with stock := p.stock - q }
  simpa [getItem_some_id hp] using h5

/-! ## Claim C1 -/

/-- C1: for a product present in the catalog and a quantity within stock,
`addItem` succeeds (HTTP 200), merges the quantity into the cart
(incrementing the productId's total quantity by `q`, appending a new line
exactly when the product was not in the cart), decrements the product's
stock by `q`, and two sequential `addItem` calls for the same user and
product accumulate quantity rather than overwrite it. -/
theorem addItem_merges_and_decrements
    (s : SysState) (u : String) (pid q q2 : Int) (t t2 : Nat) (p : Product)
    (hp : getItem s.products pid = some p) (hq : q ≤ p.stock) :
    (∃ c, (addItem s u pid q t).2 = AddItemResult.ok c)
  ∧ (addItem s u pid q t).2.status = 200
  ∧ qtyOf (getCart (addItem s u pid q t).1 u) pid = qtyOf (getCart s u) pid + q
  ∧ ((∀ it ∈ getCart s u, it.productId ≠ pid) →
      getCart (addItem s u pid q t).1 u = getCart s u ++ [⟨pid, q⟩])
  ∧ ((∃ it ∈ getCart s u, it.productId = pid) →
      (getCart (addItem s u pid q t).1 u).length = (getCart s u).length)
  ∧ getProduct (addItem s u pid q t).1 pid = some { p with stock := p.stock - q }
  ∧ (q2 ≤ p.stock - q →
      qtyOf (getCart (addItem (addItem s u pid q t).1 u pid q2 t2).1 u) pid
        = qtyOf (getCart s u) pid + (q + q2)) := by
  have h2 : (addItem s u pid q t).2 = .ok (bumpFirst (getCart s u) pid q) := by
    rw [addItem_ok_eq s u pid q t p hp hq]
  have hgc := getCart_addItem_ok s u pid q t p hp hq
  have hgi := getItem_addItem_ok s u pid q t p hp hq
  refine ⟨⟨_, h2⟩, ?_, ?_, ?_, ?_, hgi, ?_⟩
  · rw [h2]
    rfl
  · rw [hgc, qtyOf_bumpFirst]
  · intro h
    rw [hgc, bumpFirst_of_not_mem _ _ _ h]
  · intro h
    rw [hgc]
    exact length_bumpFirst_of_mem _ _ _ h
  · intro hq2
    have hgc2 := getCart_addItem_ok (addItem s u pid q t).1 u pid q2 t2
      { p with stock := p.stock - q } hgi (by simpa using hq2)
    rw [hgc2, hgc, qtyOf_bumpFirst, qtyOf_bumpFirst]
    ring

/-- Witness for C1: catalog with one product of stock 10, empty cart,
`addItem "u1" 1 2` gives quantity 2 in the cart and stock 8. -/
theorem addItem_merges_and_decrements_witness :
    getItem [⟨1, "A", 5, "d", "i", 10⟩] 1 = some ⟨1, "A", 5, "d", "i", 10⟩
  ∧ (2 : Int) ≤ (10 : Int)
  ∧ qtyOf (getCart (addItem (⟨[⟨1, "A", 5, "d", "i", 10⟩], [], []⟩ : SysState)
      "u1" 1 2 0).1 "u1") 1 = 0 + 2
  ∧ getProduct (addItem (⟨[⟨1, "A", 5, "d", "i", 10⟩], [], []⟩ : SysState)
      "u1" 1 2 0).1 1 = some ⟨1, "A", 5, "d", "i", 8⟩ := by
  refine ⟨by decide, by decide, ?_, ?_⟩
  · exact (addItem_merges_and_decrements
      (⟨[⟨1, "A", 5, "d", "i", 10⟩], [], []⟩ : SysState) "u1" 1 2 3 0 1
      ⟨1, "A", 5, "d", "i", 10⟩ (by decide) (by decide)).2.2.1
  · exact (addItem_merges_and_decrements
      (⟨[⟨1, "A", 5, "d", "i", 10⟩], [], []⟩ : SysState) "u1" 1 2 3 0 1
      ⟨1, "A", 5, "d", "i", 10⟩ (by decide) (by decide)).2.2.2.2.2.1

/-! ## Claim C3 -/

/-- C3: when the requested quantity exceeds the product's stock, `addItem`
responds 400 Insufficient stock and performs no write at all: the whole
system state (cart and stock included) is returned unchanged. -/
theorem addItem_insufficient_stock
    (s : SysState) (u : String) (pid q : Int) (t : Nat) (p : Product)
    (hp : getItem s.products pid = some p) (hq : p.stock < q) :
    addItem s u pid q t = (s, AddItemResult.insufficientStock)
  ∧ (addItem s u pid q t).2.status = 400 := by
  have h : addItem s u pid q t = (s, .insufficientStock) := by
    simp only [addItem, getProduct, hp, if_pos hq]
  exact ⟨h, by rw [h]; rfl⟩

/-- Witness for C3: asking for 5 of a product with stock 1. -/
theorem addItem_insufficient_stock_witness :
    getItem [⟨1, "A", 5, "d", "i", 1⟩] 1 = some ⟨1, "A", 5, "d", "i", 1⟩
  ∧ (1 : Int) < 5
  ∧ addItem (⟨[⟨1, "A", 5, "d", "i", 1⟩], [], []⟩ : SysState) "u1" 1 5 0
      = ((⟨[⟨1, "A", 5, "d", "i", 1⟩], [], []⟩ : SysState),
         AddItemResult.insufficientStock) :=
  ⟨by decide, by decide,
    (addItem_insufficient_stock (⟨[⟨1, "A", 5, "d", "i", 1⟩], [], []⟩ : SysState)
      "u1" 1 5 0 ⟨1, "A", 5, "d", "i", 1⟩ (by decide) (by decide)).1⟩

/-! ## Claim C4 -/

/-- C4: `createOrder` on an empty cart responds 400 Cart is empty and
persists nothing: the whole system state, in particular the orders store,
is returned unchanged. -/
theorem createOrder_empty_cart (s : SysState) (u : String) (c : Customer)
    (oid : String) (t : Nat) (h : getCart s u = []) :
    createOrder s u c oid t = (s, CreateOrderResult.emptyCart)
  ∧ (createOrder s u c oid t).2.status = 400
  ∧ (createOrder s u c oid t).1.orders = s.orders := by
  have heq : createOrder s u c oid t = (s, .emptyCart) := by
    simp [createOrder, h]
  exact ⟨heq, by rw [heq]; rfl, by rw [heq]⟩

/-- Witness for C4: a fresh store has an empty cart for every user. -/
theorem createOrder_empty_cart_witness :
    getCart (⟨[], [], []⟩ : SysState) "u1" = []
  ∧ createOrder (⟨[], [], []⟩ : SysState) "u1" ⟨"A", "a@x.com", "addr"⟩ "o1" 0
      = ((⟨[], [], []⟩ : SysState), CreateOrderResult.emptyCart) :=
  ⟨by decide,
    (createOrder_empty_cart (⟨[], [], []⟩ : SysState) "u1" ⟨"A", "a@x.com", "addr"⟩
      "o1" 0 (by decide)).1⟩

/-! ## Claim C5 -/

/-- C5: for a present id, `setStock` rewrites the full stored record with
only the stock field replaced (all other fields exactly as read), touches
no other product and no other table; for an absent id it responds 404 and
writes nothing. -/
theorem setStock_overwrites_stock_only (s : SysState) (id st : Int) :
    (∀ p, getItem s.products id = some p →
        (setStock s id st).2 = true
      ∧ getItem (setStock s id st).1.products id = some { p with stock := st }
      ∧ (∀ j, j ≠ id → getItem (setStock s id st).1.products j = getItem s.products j)
      ∧ (setStock s id st).1.carts = s.carts
      ∧ (setStock s id st).1.orders = s.orders)
  ∧ (getItem s.products id = none → setStock s id st = (s, false)) := by
  constructor
  · intro p hp
    have hs : setStock s id st
        = ({ s with products := putProduct s.products { p with stock := st } }, true) := by
      simp only [setStock, hp]
    refine ⟨by rw [hs], ?_, ?_, by rw [hs], by rw [hs]⟩
    · rw [hs]
      have h0 := getItem_putProduct_self s.products { p with stock := st }
      simpa [getItem_some_id hp] using h0
    · intro j hj
      rw [hs]
      refine getItem_putProduct_ne _ _ _ ?_
      show j ≠ p.id
      rw [getItem_some_id hp]
      exact hj
  · intro hn
    simp only [setStock, hn]

/-- Witness for C5: overwriting stock 3 with 7 keeps the other fields. -/
theorem setStock_overwrites_stock_only_witness :
    getItem [⟨1, "A", 5, "d", "i", 3⟩] 1 = some ⟨1, "A", 5, "d", "i", 3⟩
  ∧ getItem (setStock (⟨[⟨1, "A", 5, "d", "i", 3⟩], [], []⟩ : SysState) 1 7).1.products 1
      = some ⟨1, "A", 5, "d", "i", 7⟩ :=
  ⟨by decide,
    ((setStock_overwrites_stock_only (⟨[⟨1, "A", 5, "d", "i", 3⟩], [], []⟩ : SysState)
      1 7).1 ⟨1, "A", 5, "d", "i", 3⟩ (by decide)).2.1⟩

/-! ## Claim C7 -/

/-- C7: a `getProduct` immediately after a successful `setStock`, with no
intervening writes, observes the written stock value. -/
theorem getProduct_after_setStock (s : SysState) (id st : Int) (p : Product)
    (hp : getItem s.products id = some p) :
    ∃ q, getProduct (setStock s id st).1 id = some q ∧ q.stock = st := by
  refine ⟨{ p with stock := st }, ?_, rfl⟩
  have hs : (setStock s id st).1
      = { s with products := putProduct s.products { p with stock := st } } := by
    simp only [setStock, hp]
  rw [hs]
  show getItem (putProduct s.products { p with stock := st }) id = _
  have h0 := getItem_putProduct_self s.products { p with stock := st }
  simpa [getItem_some_id hp] using h0

/-- Witness for C7: after writing stock 7, reading product 1 shows 7. -/
theorem getProduct_after_setStock_witness :
    getItem [⟨1, "A", 5, "d", "i", 3⟩] 1 = some ⟨1, "A", 5, "d", "i", 3⟩
  ∧ ∃ q, getProduct (setStock (⟨[⟨1, "A", 5, "d", "i", 3⟩], [], []⟩ : SysState) 1 7).1 1
      = some q ∧ q.stock = 7 :=
  ⟨by decide,
    getProduct_after_setStock (⟨[⟨1, "A", 5, "d", "i", 3⟩], [], []⟩ : SysState) 1 7
      ⟨1, "A", 5, "d", "i", 3⟩ (by decide)⟩

/-! ## Claim C8 -/

/-- C8: `getCart` for a user with no stored cart record responds 200 with
the empty list (not an error and not null). -/
theorem getCart_missing_record (s : SysState) (u : String)
    (h : lookupCart s.carts u = none) :
    getCartHandler s u = (200, some []) ∧ getCart s u = [] := by
  constructor
  · simp [getCartHandler, h]
  · simp [getCart_eq_lookup, h]

/-- Witness for C8: a fresh store has no record for user u1. -/
theorem getCart_missing_record_witness :
    lookupCart ([] : List CartRecord) "u1" = none
  ∧ getCartHandler (⟨[], [], []⟩ : SysState) "u1" = (200, some []) :=
  ⟨by decide, (getCart_missing_record (⟨[], [], []⟩ : SysState) "u1" (by decide)).1⟩

/-! ## Claim C6 (corrected) -/

/-- C6 counterexample: two sequential `clearCart` calls store records that
differ — the second write carries a fresh `updatedAt` timestamp, so the
stored cart record after the second call does not equal the stored record
after the first. -/
theorem clearCart_stored_record_differs :
    lookupCart (clearCart (clearCart (⟨[], [], []⟩ : SysState) "u1" 0) "u1" 1).carts "u1"
      ≠ lookupCart (clearCart (⟨[], [], []⟩ : SysState) "u1" 0).carts "u1" := by
  decide

/-- C6 amended: `clearCart` is idempotent on the observable cart state:
after each of two sequential calls `getCart` returns the empty sequence
and the stored record has the same userId and the same (empty) items
list; the full stored records coincide exactly when the two calls carry
the same `updatedAt` timestamp. -/
theorem clearCart_idempotent_observable (s : SysState) (u : String) (t1 t2 : Nat) :
    getCart (clearCart s u t1) u = []
  ∧ getCart (clearCart (clearCart s u t1) u t2) u = []
  ∧ (lookupCart (clearCart (clearCart s u t1) u t2).carts u).map
        (fun r => (r.userId, r.items))
      = (lookupCart (clearCart s u t1).carts u).map (fun r => (r.userId, r.items))
  ∧ (t1 = t2 → clearCart (clearCart s u t1) u t2 = clearCart s u t1) := by
  have h1 : lookupCart (clearCart s u t1).carts u = some ⟨u, some [], t1⟩ :=
    lookupCart_putCart_mk _ _ _ _
  have h2 : lookupCart (clearCart (clearCart s u t1) u t2).carts u = some ⟨u, some [], t2⟩ :=
    lookupCart_putCart_mk _ _ _ _
  refine ⟨?_, ?_, ?_, ?_⟩
  · simp [getCart_eq_lookup, h1]
  · simp [getCart_eq_lookup, h2]
  · rw [h1, h2]
    rfl
  · intro ht
    subst ht
    have hpp : putCart (putCart s.carts ⟨u, some [], t1⟩) ⟨u, some [], t1⟩
        = putCart s.carts ⟨u, some [], t1⟩ :=
      putCart_putCart_same_key _ _ _ rfl
    simp [clearCart, hpp]

/-- Witness for the amended C6 at a concrete state and equal timestamps. -/
theorem clearCart_idempotent_observable_witness :
    getCart (clearCart (⟨[], [], []⟩ : SysState) "u1" 5) "u1" = []
  ∧ getCart (clearCart (clearCart (⟨[], [], []⟩ : SysState) "u1" 5) "u1" 5) "u1" = []
  ∧ (lookupCart (clearCart (clearCart (⟨[], [], []⟩ : SysState) "u1" 5) "u1" 5).carts "u1").map
        (fun r => (r.userId, r.items))
      = (lookupCart (clearCart (⟨[], [], []⟩ : SysState) "u1" 5).carts "u1").map
        (fun r => (r.userId, r.items))
  ∧ ((5 : Nat) = 5 → clearCart (clearCart (⟨[], [], []⟩ : SysState) "u1" 5) "u1" 5
      = clearCart (⟨[], [], []⟩ : SysState) "u1" 5) :=
  clearCart_idempotent_observable (⟨[], [], []⟩ : SysState) "u1" 5 5

/-! ## Claim C10 -/

/-- C10: the frontend cart-quantity-update flow for a productId that is
not in the user's cart performs no write at all — the state is returned
unchanged — and still redirects to `/cart`. -/
theorem frontendCartUpdate_absent_product (s : SysState) (u : String)
    (pid q : Int) (t : Nat) (h : ∀ it ∈ getCart s u, it.productId ≠ pid) :
    frontendCartUpdate s u pid q t = (s, "/cart") := by
  have hf : (getCart s u).find? (fun it => it.productId == pid) = none := by
    rw [List.find?_eq_none]
    intro it hit
    simp [h it hit]
  simp only [frontendCartUpdate, hf]

/-- Witness for C10: updating a product absent from an empty cart. -/
theorem frontendCartUpdate_absent_product_witness :
    (∀ it ∈ getCart (⟨[], [], []⟩ : SysState) "u1", it.productId ≠ 1)
  ∧ frontendCartUpdate (⟨[], [], []⟩ : SysState) "u1" 1 2 0
      = ((⟨[], [], []⟩ : SysState), "/cart") :=
  ⟨by decide, frontendCartUpdate_absent_product (⟨[], [], []⟩ : SysState) "u1" 1 2 0
    (by decide)⟩

/-! ## Claim C2 -/

theorem buildOrderItems_eq (products : List Product) (l : List CartItem)
    (h : ∀ it ∈ l, (getItem products it.productId).isSome) :
    ∃ items total, buildOrderItems products l = some (items, total)
    ∧ total = cartTotal products l
    ∧ List.Forall₂ (fun (oi : OrderItem) (ci : CartItem) =>
        oi.quantity = ci.quantity
        ∧ oi.itemTotal = oi.product.price * (ci.quantity : Rat)
        ∧ ∃ p, getItem products ci.productId = some p ∧ oi.product = ⟨p.id, p.name, p.price⟩)
      items l := by
  induction l with
  | nil => exact ⟨[], 0, rfl, rfl, List.Forall₂.nil⟩
  | cons it rest ih =>
    obtain ⟨p, hp⟩ : ∃ p, getItem products it.productId = some p :=
      Option.isSome_iff_exists.mp (h it (by simp))
    obtain ⟨items, total, hb, htot, hfa⟩ :=
      ih (fun x hx => h x (List.mem_cons_of_mem _ hx))
    refine ⟨⟨⟨p.id, p.name, p.price⟩, it.quantity, p.price * (it.quantity : Rat)⟩ :: items,
            p.price * (it.quantity : Rat) + total, ?_, ?_, ?_⟩
    · simp [buildOrderItems, hp, hb]
    · simp [cartTotal, hp, htot]
    · exact List.Forall₂.cons ⟨rfl, rfl, ⟨p, hp, rfl⟩⟩ hfa

/-- C2: `createOrder` on a non-empty cart (each line's product being in the
catalog) returns an Order whose total is the sum over cart lines of the
product's current catalog price times the line quantity, whose items each
carry `itemTotal = price * quantity` with price and name snapshotted from
the current catalog record, and leaves the user's cart empty. -/
theorem createOrder_totals_current_prices (s : SysState) (u : String)
    (c : Customer) (oid : String) (t : Nat)
    (hne : getCart s u ≠ [])
    (hres : ∀ it ∈ getCart s u, (getItem s.products it.productId).isSome) :
    ∃ o, (createOrder s u c oid t).2 = CreateOrderResult.ok o
    ∧ o.total = cartTotal s.products (getCart s u)
    ∧ List.Forall₂ (fun (oi : OrderItem) (ci : CartItem) =>
        oi.quantity = ci.quantity
        ∧ oi.itemTotal = oi.product.price * (ci.quantity : Rat)
        ∧ ∃ p, getItem s.products ci.productId = some p ∧ oi.product = ⟨p.id, p.name, p.price⟩)
      o.items (getCart s u)
    ∧ getCart (createOrder s u c oid t).1 u = [] := by
  obtain ⟨items, total, hb, htot, hfa⟩ := buildOrderItems_eq s.products (getCart s u) hres
  have hcond : ((getCart s u).length == 0) = false := by
    rw [beq_eq_false_iff_ne]
    simpa [List.length_eq_zero] using hne
  have heq : createOrder s u c oid t
      = (clearCart ⟨s.products, s.carts,
            putOrder s.orders ⟨oid, u, t, c, items, total, "Confirmed"⟩⟩ u t,
         CreateOrderResult.ok ⟨oid, u, t, c, items, total, "Confirmed"⟩) := by
    simp [createOrder, hcond, hb]
  refine ⟨⟨oid, u, t, c, items, total, "Confirmed"⟩, by rw [heq], htot, hfa, ?_⟩
  rw [heq]
  simp [clearCart, getCart_eq_lookup, lookupCart_putCart_mk]

/-- Witness for C2: one product of price 5, cart holding 2 of it; the
order totals 10 and the cart is cleared. -/
theorem createOrder_totals_current_prices_witness :
    getCart (⟨[⟨1, "A", 5, "d", "i", 10⟩], [⟨"u1", some [⟨1, 2⟩], 0⟩], []⟩ : SysState) "u1" ≠ []
  ∧ (∀ it ∈ getCart (⟨[⟨1, "A", 5, "d", "i", 10⟩], [⟨"u1", some [⟨1, 2⟩], 0⟩], []⟩ : SysState) "u1",
      (getItem (⟨[⟨1, "A", 5, "d", "i", 10⟩], [⟨"u1", some [⟨1, 2⟩], 0⟩], []⟩ : SysState).products
        it.productId).isSome)
  ∧ ∃ o, (createOrder (⟨[⟨1, "A", 5, "d", "i", 10⟩], [⟨"u1", some [⟨1, 2⟩], 0⟩], []⟩ : SysState)
        "u1" ⟨"A", "a@x.com", "addr"⟩ "o1" 7).2 = CreateOrderResult.ok o
    ∧ o.total = cartTotal
        (⟨[⟨1, "A", 5, "d", "i", 10⟩], [⟨"u1", some [⟨1, 2⟩], 0⟩], []⟩ : SysState).products
        (getCart (⟨[⟨1, "A", 5, "d", "i", 10⟩], [⟨"u1", some [⟨1, 2⟩], 0⟩], []⟩ : SysState) "u1")
    ∧ List.Forall₂ (fun (oi : OrderItem) (ci : CartItem) =>
        oi.quantity = ci.quantity
        ∧ oi.itemTotal = oi.product.price * (ci.quantity : Rat)
        ∧ ∃ p, getItem
            (⟨[⟨1, "A", 5, "d", "i", 10⟩], [⟨"u1", some [⟨1, 2⟩], 0⟩], []⟩ : SysState).products
            ci.productId = some p ∧ oi.product = ⟨p.id, p.name, p.price⟩)
      o.items (getCart (⟨[⟨1, "A", 5, "d", "i", 10⟩], [⟨"u1", some [⟨1, 2⟩], 0⟩], []⟩ : SysState) "u1")
    ∧ getCart (createOrder (⟨[⟨1, "A", 5, "d", "i", 10⟩], [⟨"u1", some [⟨1, 2⟩], 0⟩], []⟩ : SysState)
        "u1" ⟨"A", "a@x.com", "addr"⟩ "o1" 7).1 "u1" = [] :=
  ⟨by decide, by decide,
    createOrder_totals_current_prices
      (⟨[⟨1, "A", 5, "d", "i", 10⟩], [⟨"u1", some [⟨1, 2⟩], 0⟩], []⟩ : SysState)
      "u1" ⟨"A", "a@x.com", "addr"⟩ "o1" 7 (by decide) (by decide)⟩

/-! ## Claim C9 -/

/-- One request to any of the state-mutating endpoints of the system. -/
inductive Op
  | addOp (u : String) (pid q : Int) (t : Nat)
  | replaceOp (u : String) (items : Option (List CartItem)) (t : Nat)
  | clearOp (u : String) (t : Nat)
  | orderOp (u : String) (c : Customer) (oid : String) (t : Nat)
  | stockOp (id st : Int)
  | feUpdateOp (u : String) (pid q : Int) (t : Nat)
  deriving Repr

/-- Apply one request to the system state. -/
def applyOp (s : SysState) : Op → SysState
  | .addOp u pid q t => (addItem s u pid q t).1
  | .replaceOp u items t => replaceCart s u items t
  | .clearOp u t => clearCart s u t
  | .orderOp u c oid t => (createOrder s u c oid t).1
  | .stockOp id st => (setStock s id st).1
  | .feUpdateOp u pid q t => (frontendCartUpdate s u pid q t).1

/-- Invariant: every stored cart record's items attribute is an actual
list (never a JSON null / absent attribute). -/
def CartsWF (s : SysState) : Prop :=
  ∀ r ∈ s.carts, ∃ l, r.items = some l

theorem cartsWF_putCart (cs : List CartRecord) (r : CartRecord)
    (hr : ∃ l, r.items = some l) :
    (∀ x ∈ cs, ∃ l, x.items = some l) → ∀ x ∈ putCart cs r, ∃ l, x.items = some l := by
  induction cs with
  | nil =>
    intro _ x hx
    simp [putCart] at hx
    subst hx
    exact hr
  | cons q rest ih =>
    intro h x hx
    by_cases hq : q.userId = r.userId
    · simp [putCart, hq] at hx
      rcases hx with hx | hx
      · subst hx; exact hr
      · exact h x (List.mem_cons_of_mem _ hx)
    · simp [putCart, hq] at hx
      rcases hx with hx | hx
      · subst hx
        exact h _ (by simp)
      · exact ih (fun y hy => h y (List.mem_cons_of_mem _ hy)) x hx

theorem cartsWF_of_eq_putCart {s s' : SysState} (h : CartsWF s)
    (u : String) (items : List CartItem) (ts : Nat)
    (hc : s'.carts = putCart s.carts ⟨u, some items, ts⟩) : CartsWF s' := by
  intro r hr
  rw [hc] at hr
  exact cartsWF_putCart s.carts ⟨u, some items, ts⟩ ⟨items, rfl⟩ h r hr

theorem cartsWF_of_carts_eq {s s' : SysState} (h : CartsWF s)
    (hc : s'.carts = s.carts) : CartsWF s' := by
  intro r hr
  exact h r (hc ▸ hr)

theorem addItem_carts_cases (s : SysState) (u : String) (pid q : Int) (t : Nat) :
    (addItem s u pid q t).1.carts = s.carts
  ∨ ∃ items, (addItem s u pid q t).1.carts = putCart s.carts ⟨u, some items, t⟩ := by
  cases hp : getProduct s pid with
  | none =>
    left
    simp [addItem, hp]
  | some p =>
    by_cases hlt : p.stock < q
    · left
      simp [addItem, hp, hlt]
    · right
      exact ⟨_, by rw [addItem_ok_eq s u pid q t p hp (not_lt.mp hlt)]⟩

theorem createOrder_carts_cases (s : SysState) (u : String) (c : Customer)
    (oid : String) (t : Nat) :
    (createOrder s u c oid t).1.carts = s.carts
  ∨ ∃ ts, (createOrder s u c oid t).1.carts = putCart s.carts ⟨u, some [], ts⟩ := by
  by_cases hc : ((getCart s u).length == 0) = true
  · left
    simp [createOrder, hc]
  · cases hb : buildOrderItems s.products (getCart s u) with
    | none =>
      left
      simp [createOrder, hc, hb]
    | some pr =>
      right
      exact ⟨t, by simp [createOrder, hc, hb, clearCart]⟩

theorem frontendCartUpdate_carts_cases (s : SysState) (u : String)
    (pid q : Int) (t : Nat) :
    (frontendCartUpdate s u pid q t).1.carts = s.carts
  ∨ ∃ items, (frontendCartUpdate s u pid q t).1.carts = putCart s.carts ⟨u, some items, t⟩ := by
  cases hf : (getCart s u).find? (fun it => it.productId == pid) with
  | none => left; simp [frontendCartUpdate, hf]
  | some currentItem =>
    by_cases hq : q ≤ 0
    · cases hp : getProduct s pid with
      | none => left; simp [frontendCartUpdate, hf, hq, hp]
      | some product =>
        right
        refine ⟨(getCart s u).filter (fun it => !(it.productId == pid)), ?_⟩
        simp [frontendCartUpdate, hf, hq, hp, replaceCart, setStock_carts]
    · cases hp : getProduct s pid with
      | none => left; simp [frontendCartUpdate, hf, hq, hp]
      | some product =>
        right
        refine ⟨(getCart s u).map (fun it =>
          if it.productId == pid then { it with quantity := q } else it), ?_⟩
        simp [frontendCartUpdate, hf, hq, hp, replaceCart, setStock_carts]

theorem cartsWF_applyOp (s : SysState) (op : Op) (h : CartsWF s) :
    CartsWF (applyOp s op) := by
  cases op with
  | addOp u pid q t =>
    rcases addItem_carts_cases s u pid q t with hc | ⟨items, hc⟩
    · exact cartsWF_of_carts_eq h hc
    · exact cartsWF_of_eq_putCart h u items t hc
  | replaceOp u items t =>
    exact cartsWF_of_eq_putCart h u (items.getD []) t rfl
  | clearOp u t =>
    exact cartsWF_of_eq_putCart h u [] t rfl
  | orderOp u c oid t =>
    rcases createOrder_carts_cases s u c oid t with hc | ⟨ts, hc⟩
    · exact cartsWF_of_carts_eq h hc
    · exact cartsWF_of_eq_putCart h u [] ts hc
  | stockOp id st =>
    exact cartsWF_of_carts_eq h (setStock_carts s id st)
  | feUpdateOp u pid q t =>
    rcases frontendCartUpdate_carts_cases s u pid q t with hc | ⟨items, hc⟩
    · exact cartsWF_of_carts_eq h hc
    · exact cartsWF_of_eq_putCart h u items t hc

theorem cartsWF_foldl (ops : List Op) (s0 : SysState) (h0 : CartsWF s0) :
    CartsWF (List.foldl applyOp s0 ops) := by
  induction ops generalizing s0 with
  | nil => exact h0
  | cons op rest ih => exact ih _ (cartsWF_applyOp s0 op h0)

/-- C9: starting from any state whose cart records all hold actual item
lists (e.g. the empty store), after any sequence of requests every
persisted cart record still has an items field that is a list — never
null or absent; `getCart` responds 200 with a list for every user; and
`replaceCart` with a missing/null items body stores the empty list. -/
theorem carts_items_always_list (ops : List Op) (s0 : SysState) (h0 : CartsWF s0) :
    CartsWF (List.foldl applyOp s0 ops)
  ∧ (∀ u, ∃ l, getCartHandler (List.foldl applyOp s0 ops) u = (200, some l))
  ∧ (∀ u ts, lookupCart (replaceCart (List.foldl applyOp s0 ops) u none ts).carts u
      = some ⟨u, some [], ts⟩) := by
  refine ⟨cartsWF_foldl ops s0 h0, ?_, ?_⟩
  · intro u
    unfold getCartHandler
    cases lookupCart (List.foldl applyOp s0 ops).carts u with
    | none => exact ⟨[], rfl⟩
    | some r => exact ⟨_, rfl⟩
  · intro u ts
    exact lookupCart_putCart_mk _ _ _ _

/-- Witness for C9: one replaceCart request with a null items body on the
empty store. -/
theorem carts_items_always_list_witness :
    CartsWF (List.foldl applyOp (⟨[], [], []⟩ : SysState) [Op.replaceOp "u1" none 3])
  ∧ (∀ u, ∃ l, getCartHandler
      (List.foldl applyOp (⟨[], [], []⟩ : SysState) [Op.replaceOp "u1" none 3]) u = (200, some l))
  ∧ (∀ u ts, lookupCart (replaceCart
      (List.foldl applyOp (⟨[], [], []⟩ : SysState) [Op.replaceOp "u1" none 3]) u none ts).carts u
      = some ⟨u, some [], ts⟩) :=
  carts_items_always_list [Op.replaceOp "u1" none 3] (⟨[], [], []⟩ : SysState)
    (by simp [CartsWF])

end Shopmate
